import Mathlib

/-!
# SignSpeak model server: inference pipeline, shallow embedding

Embedding of `src/ml/model_server.py`: the `/predict` request pipeline
(input extraction, tensor normalization, shape check, model invocation,
argmax resolution, label lookup, response formatting) and the `/health`
endpoint.  Numeric scores are modelled as rationals; numpy arrays as a
shape together with flattened data.
-/

/-- A numpy array as produced by `np.array(data['image'], dtype=np.float32)`:
its shape tuple and its (flattened) numeric contents. -/
structure NPArray where
  shape : List Nat
  data : List Rat
deriving DecidableEq

/-- The loaded Keras model, as the pipeline sees it: `model.predict` either
returns a batch of per-class score vectors or raises (an error message). -/
def ModelHandle : Type := NPArray → Except String (List (List Rat))

/-- A JSON response body: either a success payload
`{"prediction": ..., "confidence": ...}`, an `{"error": ...}` payload, or the
health payload `{"status": ..., "model_loaded": ...}`. -/
inductive Payload where
  | success (prediction : String) (confidence : Rat)
  | error (msg : String)
  | health (status : String) (model_loaded : Bool)
deriving DecidableEq

/-- An HTTP response: status code plus JSON body. -/
structure Response where
  status : Nat
  body : Payload
deriving DecidableEq

/-- `expected_shape = (1, 160, 160, 3)` from `predict`. -/
def expected_shape : List Nat := [1, 160, 160, 3]

/-- Python's `repr` of a shape tuple, as interpolated by the f-string in the
shape error message: `()`, `(n,)`, or `(a, b, ...)`. -/
def shapeRepr : List Nat → String
  | [] => "()"
  | [n] => "(" ++ toString n ++ ",)"
  | s => "(" ++ String.intercalate ", " (s.map toString) ++ ")"

/-- Lines 35-36: `if len(image_data.shape) == 3: image_data =
np.expand_dims(image_data, axis=0)` — add a leading batch dimension of size 1
to a 3-dimensional array, leave anything else unchanged. -/
def normalizeInput (a : NPArray) : NPArray :=
  if a.shape.length = 3 then { a with shape := 1 :: a.shape } else a

/-- `np.argmax` over a vector: index of the maximum entry, ties broken by the
lowest index.  (On the empty vector numpy raises; `predict` below guards that
case separately, so the value returned here for `[]` is never used.) -/
def npArgmax : List Rat → Nat
  | [] => 0
  | [_] => 0
  | x :: y :: ys =>
    if (y :: ys).getD (npArgmax (y :: ys)) 0 ≤ x then 0
    else npArgmax (y :: ys) + 1

/-- The `/predict` handler (lines 29-67 of `model_server.py`).  The request
body's `image` field is `some` array or `none` (absent).  A missing field
raises `KeyError('image')`, caught by the catch-all `except` which returns
`{'error': str(e)}` with status 500; `str` of that `KeyError` is `'image'`
with the quotes. -/
def predict (model : ModelHandle) (class_labels : List String)
    (req : Option NPArray) : Response :=
  match req with
  | none => ⟨500, Payload.error "\x27image\x27"⟩
  | some img =>
    let image_data := normalizeInput img
    if image_data.shape ≠ expected_shape then
      ⟨400, Payload.error ("Invalid input shape. Expected "
        ++ shapeRepr expected_shape ++ ", got " ++ shapeRepr image_data.shape)⟩
    else
      match model image_data with
      | Except.error e => ⟨500, Payload.error e⟩
      | Except.ok predictions =>
        match predictions with
        | [] => ⟨500, Payload.error "index 0 is out of bounds for axis 0 with size 0"⟩
        | scores :: _ =>
          match scores with
          | [] => ⟨500, Payload.error "attempt to get argmax of an empty sequence"⟩
          | _ :: _ =>
            let predicted_idx := npArgmax scores
            let confidence := scores.getD predicted_idx 0
            let predicted_class :=
              if predicted_idx ≥ class_labels.length then
                "UNKNOWN_CLASS_" ++ toString predicted_idx
              else
                class_labels.getD predicted_idx ""
            ⟨200, Payload.success predicted_class confidence⟩

/-- The process state after startup: the loaded model and label table.
`predict` only reads these module-level globals; no request path assigns
them. -/
structure ServerState where
  model : ModelHandle
  class_labels : List String

/-- One dispatch of a `/predict` request against the server's state: the
handler produces a response and the state it leaves behind (unchanged, as the
handler performs no assignment to the globals). -/
def predictRoute (s : ServerState) (req : Option NPArray) :
    Response × ServerState :=
  (predict s.model s.class_labels req, s)

/-- The `/health` handler (lines 69-71): unconditionally
`{'status': 'ok', 'model_loaded': True}` with the default 200 status. -/
def health (_ : ServerState) : Response :=
  ⟨200, Payload.health "ok" true⟩

/-- Modelled from the spec: the Label Table.  The file
`../public/models/asl_model/class_labels.json` it is loaded from is not under
`src/`; the spec describes it as an immutable ordered list of class names for
the 26-class sign-language model, taken here as the 26 letter names A-Z. -/
def class_labels : List String :=
  ["A", "B", "C", "D", "E", "F", "G", "H", "I", "J", "K", "L", "M",
   "N", "O", "P", "Q", "R", "S", "T", "U", "V", "W", "X", "Y", "Z"]

/-! ## Concrete inputs used by the witnesses -/

/-- An all-zero pre-batched image of the expected shape `(1, 160, 160, 3)`. -/
def batchedImage : NPArray := ⟨[1, 160, 160, 3], List.replicate (160 * 160 * 3) 0⟩

/-- An all-zero single-frame image of shape `(160, 160, 3)`. -/
def unbatchedImage : NPArray := ⟨[160, 160, 3], List.replicate (160 * 160 * 3) 0⟩

/-- An image with a wrong channel count, shape `(1, 160, 160, 4)`. -/
def wrongChannelImage : NPArray := ⟨[1, 160, 160, 4], List.replicate (160 * 160 * 4) 0⟩

/-- A 2-dimensional input, neither 3- nor 4-dimensional. -/
def flatImage : NPArray := ⟨[2, 2], [0, 0, 0, 0]⟩

/-- A deterministic stand-in model returning the probability vector `[1, 0]`. -/
def probModel : ModelHandle := fun _ => Except.ok [[1, 0]]

/-- A stand-in model with a tie in its score vector. -/
def tieModel : ModelHandle := fun _ => Except.ok [[1, 3, 3, 2]]

/-- A stand-in model whose invocation raises. -/
def failModel : ModelHandle := fun _ => Except.error "matrix size mismatch"

/-! ## Helper lemmas about `npArgmax` and list indexing -/

lemma getD_mem_of_lt {α : Type} (d : α) (l : List α) (j : Nat) (h : j < l.length) :
    l.getD j d ∈ l := by
  induction l generalizing j with
  | nil => simp at h
  | cons x t ih =>
    cases j with
    | zero => simp
    | succ k =>
      simp only [List.getD_cons_succ]
      exact List.mem_cons_of_mem _ (ih k (by simpa using h))

lemma npArgmax_lt_length (l : List Rat) (h : l ≠ []) :
    npArgmax l < l.length := by
  induction l with
  | nil => exact absurd rfl h
  | cons x t ih =>
    cases t with
    | nil => simp [npArgmax]
    | cons y ys =>
      rw [npArgmax]
      split
      · simp
      · have := ih (by simp)
        simpa using Nat.succ_lt_succ this

lemma npArgmax_is_max (l : List Rat) :
    ∀ j < l.length, l.getD j 0 ≤ l.getD (npArgmax l) 0 := by
  induction l with
  | nil => intro j hj; simp at hj
  | cons x t ih =>
    cases t with
    | nil =>
      intro j hj
      have : j = 0 := Nat.lt_one_iff.mp (by simpa using hj)
      subst this
      simp [npArgmax]
    | cons y ys =>
      intro j hj
      rw [npArgmax]
      split
      · rename_i hM
        cases j with
        | zero => simp
        | succ k =>
          have hk : k < (y :: ys).length := by simpa using hj
          have := ih k hk
          simpa using le_trans this hM
      · rename_i hM
        cases j with
        | zero =>
          simpa using le_of_lt (lt_of_not_le hM)
        | succ k =>
          have hk : k < (y :: ys).length := by simpa using hj
          simpa using ih k hk

lemma npArgmax_first (l : List Rat) :
    ∀ j < npArgmax l, l.getD j 0 < l.getD (npArgmax l) 0 := by
  induction l with
  | nil => intro j hj; simp [npArgmax] at hj
  | cons x t ih =>
    cases t with
    | nil => intro j hj; simp [npArgmax] at hj
    | cons y ys =>
      intro j hj
      rw [npArgmax] at hj ⊢
      split at hj
      · exact absurd hj (Nat.not_lt_zero j)
      · rename_i hM
        split
        · exact absurd ‹(y :: ys).getD (npArgmax (y :: ys)) 0 ≤ x› hM
        · cases j with
          | zero => simpa using lt_of_not_le hM
          | succ k =>
            have hk : k < npArgmax (y :: ys) := Nat.lt_of_succ_lt_succ hj
            simpa using ih k hk

/-- If the normalized tensor passes the shape check and the model returns a
batch whose first row is the non-empty vector `a :: as`, `predict` reaches the
success branch: argmax index, confidence read off at that index, label lookup
with the out-of-range guard. -/
lemma predict_model_ok (m : ModelHandle) (l : List String) (img : NPArray)
    (a : Rat) (as : List Rat) (rest : List (List Rat))
    (hshape : (normalizeInput img).shape = expected_shape)
    (hm : m (normalizeInput img) = Except.ok ((a :: as) :: rest)) :
    predict m l (some img) =
      ⟨200, Payload.success
        (if npArgmax (a :: as) ≥ l.length then
          "UNKNOWN_CLASS_" ++ toString (npArgmax (a :: as))
         else l.getD (npArgmax (a :: as)) "")
        ((a :: as).getD (npArgmax (a :: as)) 0)⟩ := by
  simp only [predict]
  rw [if_neg (not_not_intro hshape), hm]

/-- `normalizeInput` is idempotent: a second pass never adds another batch
dimension. -/
lemma normalizeInput_idem (a : NPArray) :
    normalizeInput (normalizeInput a) = normalizeInput a := by
  by_cases h : a.shape.length = 3 <;> simp [normalizeInput, h]

lemma unknown_label_ne_empty (s : String) : "UNKNOWN_CLASS_" ++ s ≠ "" := by
  intro h
  have hlen := congrArg String.length h
  rw [String.length_append] at hlen
  have h14 : ("UNKNOWN_CLASS_" : String).length = 14 := rfl
  rw [h14] at hlen
  simp at hlen


/-! ## Claims -/

/-- C6: the tensor normalizer adds a leading batch dimension of size 1 to
every 3-dimensional input array, passes every 4-dimensional input array
through unchanged, and runs before the shape comparison (so `predict` treats
an input and its normalized form identically). -/
theorem C6_normalizer (a : NPArray) :
    (a.shape.length = 3 → normalizeInput a = { a with shape := 1 :: a.shape }) ∧
    (a.shape.length = 4 → normalizeInput a = a) ∧
    (∀ m l, predict m l (some a) = predict m l (some (normalizeInput a))) := by
  refine ⟨fun h => by simp [normalizeInput, h],
          fun h => by simp [normalizeInput, h],
          fun m l => ?_⟩
  simp only [predict, normalizeInput_idem]

theorem C6_normalizer_witness :
    (normalizeInput unbatchedImage =
      { unbatchedImage with shape := 1 :: unbatchedImage.shape }) ∧
    (normalizeInput batchedImage = batchedImage) :=
  ⟨(C6_normalizer unbatchedImage).1 (by decide),
   (C6_normalizer batchedImage).2.1 (by decide)⟩

/-- C8: two invocations of the predict pipeline against the same server state
and the same request produce identical responses (hence identical
`prediction` and `confidence`), and a request leaves the server state
unchanged: the pipeline reads no per-request mutable state. -/
theorem C8_determinism (s : ServerState) (req : Option NPArray) :
    (predictRoute s req).2 = s ∧
    (predictRoute s req).1 = (predictRoute (predictRoute s req).2 req).1 :=
  ⟨rfl, rfl⟩

/-- C9: after startup, every `GET /health` request returns status 200 with
payload `{"status": "ok", "model_loaded": true}`, independently of the server
state and with no failure path. -/
theorem C9_health (s t : ServerState) :
    health s = ⟨200, Payload.health "ok" true⟩ ∧ health s = health t :=
  ⟨rfl, rfl⟩

/-- C10: a numeric `image` array whose number of dimensions is neither 3 nor
4 is left unchanged by the normalizer, fails the shape comparison, and yields
the 400 shape error reporting that array's actual shape; the model is never
invoked (the response does not depend on the model). -/
theorem C10_bad_ndim (m m2 : ModelHandle) (l : List String) (img : NPArray)
    (h3 : img.shape.length ≠ 3) (h4 : img.shape.length ≠ 4) :
    normalizeInput img = img ∧
    (normalizeInput img).shape ≠ expected_shape ∧
    predict m l (some img) =
      ⟨400, Payload.error ("Invalid input shape. Expected (1, 160, 160, 3), got "
        ++ shapeRepr img.shape)⟩ ∧
    predict m l (some img) = predict m2 l (some img) := by
  have hn : normalizeInput img = img := by simp [normalizeInput, h3]
  have hs : img.shape ≠ expected_shape := by
    intro h
    exact h4 (by rw [h]; rfl)
  have hpre : ("Invalid input shape. Expected " ++ shapeRepr expected_shape
      ++ ", got ") = "Invalid input shape. Expected (1, 160, 160, 3), got " := by
    decide
  refine ⟨hn, by rw [hn]; exact hs, ?_, ?_⟩
  · simp only [predict, hn]
    rw [if_pos hs, hpre]
  · simp only [predict, hn]
    rw [if_pos hs, if_pos hs]

theorem C10_bad_ndim_witness :
    normalizeInput flatImage = flatImage ∧
    (normalizeInput flatImage).shape ≠ expected_shape ∧
    predict probModel class_labels (some flatImage) =
      ⟨400, Payload.error ("Invalid input shape. Expected (1, 160, 160, 3), got "
        ++ shapeRepr flatImage.shape)⟩ ∧
    predict probModel class_labels (some flatImage) =
      predict failModel class_labels (some flatImage) :=
  C10_bad_ndim probModel failModel class_labels flatImage (by decide) (by decide)

/-- C2: whenever the normalized shape differs from `(1, 160, 160, 3)`, the
pipeline returns status 400 with the error message naming the expected shape
and the actual shape. -/
theorem C2_shape_error (m : ModelHandle) (l : List String) (img : NPArray)
    (h : (normalizeInput img).shape ≠ expected_shape) :
    predict m l (some img) =
      ⟨400, Payload.error ("Invalid input shape. Expected (1, 160, 160, 3), got "
        ++ shapeRepr (normalizeInput img).shape)⟩ := by
  have hpre : ("Invalid input shape. Expected " ++ shapeRepr expected_shape
      ++ ", got ") = "Invalid input shape. Expected (1, 160, 160, 3), got " := by
    decide
  simp only [predict]
  rw [if_pos h, hpre]

theorem C2_shape_error_witness :
    predict probModel class_labels (some wrongChannelImage) =
      ⟨400, Payload.error
        "Invalid input shape. Expected (1, 160, 160, 3), got (1, 160, 160, 4)"⟩ := by
  rw [C2_shape_error probModel class_labels wrongChannelImage (by decide)]
  decide

/-- C3 counterexample: a request body with no `image` field is answered with
status 500 — not a 400-equivalent client error as claimed. -/
theorem C3_counterexample :
    (predict probModel class_labels none).status = 500 ∧
    ¬ (predict probModel class_labels none).status = 400 := by
  decide

/-- C3 (amended): a request body with no `image` field is answered with a
status-500 error payload carrying an `error` string (the stringified
`KeyError`), and never with a success payload. -/
theorem C3_missing_image (m : ModelHandle) (l : List String) :
    predict m l none = ⟨500, Payload.error "\x27image\x27"⟩ ∧
    (∃ e, (predict m l none).body = Payload.error e) ∧
    ∀ p c, (predict m l none).body ≠ Payload.success p c := by
  refine ⟨rfl, ⟨_, rfl⟩, fun p c h => ?_⟩
  simp [predict] at h

/-- C5: when the argmax index is at or beyond the label table's length, the
resolved label is the synthesized `UNKNOWN_CLASS_<index>` marker and the
request still succeeds with status 200. -/
theorem C5_unknown_class (m : ModelHandle) (l : List String) (img : NPArray)
    (a : Rat) (as : List Rat) (rest : List (List Rat))
    (hshape : (normalizeInput img).shape = expected_shape)
    (hm : m (normalizeInput img) = Except.ok ((a :: as) :: rest))
    (hidx : npArgmax (a :: as) ≥ l.length) :
    predict m l (some img) =
      ⟨200, Payload.success ("UNKNOWN_CLASS_" ++ toString (npArgmax (a :: as)))
        ((a :: as).getD (npArgmax (a :: as)) 0)⟩ := by
  rw [predict_model_ok m l img a as rest hshape hm, if_pos hidx]

theorem C5_unknown_class_witness :
    predict probModel [] (some batchedImage) =
      ⟨200, Payload.success ("UNKNOWN_CLASS_" ++ toString (npArgmax ((1 : Rat) :: [0])))
        (((1 : Rat) :: [0]).getD (npArgmax ((1 : Rat) :: [0])) 0)⟩ :=
  C5_unknown_class probModel [] batchedImage 1 [0] [] (by decide) rfl (by decide)

/-- Every response body produced by `predict` is a success payload or an
error payload. -/
lemma predict_body_cases (m : ModelHandle) (l : List String)
    (req : Option NPArray) :
    (∃ p c, (predict m l req).body = Payload.success p c) ∨
    (∃ e, (predict m l req).body = Payload.error e) := by
  rcases req with _ | img
  · exact Or.inr ⟨_, rfl⟩
  · simp only [predict]
    split
    · exact Or.inr ⟨_, rfl⟩
    · rcases hm : m (normalizeInput img) with e | preds
      · exact Or.inr ⟨_, rfl⟩
      · rcases preds with _ | ⟨scores, rest⟩
        · exact Or.inr ⟨_, rfl⟩
        · rcases scores with _ | ⟨a, as⟩
          · exact Or.inr ⟨_, rfl⟩
          · exact Or.inl ⟨_, _, rfl⟩

/-- C7: when the model invocation raises, the pipeline returns status 500
with an error payload preserving the underlying message; and every response
body is exactly one of a success payload or an error payload — never both,
never neither (in particular the error path carries no
`prediction`/`confidence` fields). -/
theorem C7_inference_error :
    (∀ (m : ModelHandle) (l : List String) (img : NPArray) (e : String),
      (normalizeInput img).shape = expected_shape →
      m (normalizeInput img) = Except.error e →
      predict m l (some img) = ⟨500, Payload.error e⟩) ∧
    (∀ (m : ModelHandle) (l : List String) (req : Option NPArray),
      Xor' (∃ p c, (predict m l req).body = Payload.success p c)
           (∃ e, (predict m l req).body = Payload.error e)) := by
  constructor
  · intro m l img e hshape hm
    simp only [predict]
    rw [if_neg (not_not_intro hshape), hm]
  · intro m l req
    rcases predict_body_cases m l req with h | h
    · refine Or.inl ⟨h, ?_⟩
      rintro ⟨e, he⟩
      obtain ⟨p, c, hp⟩ := h
      rw [hp] at he
      cases he
    · refine Or.inr ⟨h, ?_⟩
      rintro ⟨p, c, hp⟩
      obtain ⟨e, he⟩ := h
      rw [he] at hp
      cases hp

theorem C7_inference_error_witness :
    predict failModel class_labels (some batchedImage) =
      ⟨500, Payload.error "matrix size mismatch"⟩ ∧
    Xor' (∃ p c, (predict failModel class_labels (some batchedImage)).body =
            Payload.success p c)
         (∃ e, (predict failModel class_labels (some batchedImage)).body =
            Payload.error e) :=
  ⟨C7_inference_error.1 failModel class_labels batchedImage
      "matrix size mismatch" (by decide) rfl,
   C7_inference_error.2 failModel class_labels (some batchedImage)⟩

/-- C4: the resolver selects the index of the maximum score, ties broken by
the lowest index, and the returned confidence is exactly the score at that
index — no renormalization or clamping. -/
theorem C4_argmax (m : ModelHandle) (l : List String) (img : NPArray)
    (a : Rat) (as : List Rat) (rest : List (List Rat))
    (hshape : (normalizeInput img).shape = expected_shape)
    (hm : m (normalizeInput img) = Except.ok ((a :: as) :: rest)) :
    npArgmax (a :: as) < (a :: as).length ∧
    (∀ j < (a :: as).length,
      (a :: as).getD j 0 ≤ (a :: as).getD (npArgmax (a :: as)) 0) ∧
    (∀ j < npArgmax (a :: as),
      (a :: as).getD j 0 < (a :: as).getD (npArgmax (a :: as)) 0) ∧
    ∃ pred, predict m l (some img) =
      ⟨200, Payload.success pred ((a :: as).getD (npArgmax (a :: as)) 0)⟩ :=
  ⟨npArgmax_lt_length _ (by simp), npArgmax_is_max _, npArgmax_first _,
   ⟨_, predict_model_ok m l img a as rest hshape hm⟩⟩

theorem C4_argmax_witness :
    npArgmax ((1 : Rat) :: [3, 3, 2]) < ((1 : Rat) :: [3, 3, 2]).length ∧
    (∀ j < ((1 : Rat) :: [3, 3, 2]).length,
      ((1 : Rat) :: [3, 3, 2]).getD j 0 ≤
        ((1 : Rat) :: [3, 3, 2]).getD (npArgmax ((1 : Rat) :: [3, 3, 2])) 0) ∧
    (∀ j < npArgmax ((1 : Rat) :: [3, 3, 2]),
      ((1 : Rat) :: [3, 3, 2]).getD j 0 <
        ((1 : Rat) :: [3, 3, 2]).getD (npArgmax ((1 : Rat) :: [3, 3, 2])) 0) ∧
    ∃ pred, predict tieModel class_labels (some batchedImage) =
      ⟨200, Payload.success pred
        (((1 : Rat) :: [3, 3, 2]).getD (npArgmax ((1 : Rat) :: [3, 3, 2])) 0)⟩ :=
  C4_argmax tieModel class_labels batchedImage 1 [3, 3, 2] [] (by decide) rfl

/-- C1: for any request whose `image` is a numeric array of shape
`(160, 160, 3)` or `(1, 160, 160, 3)`, if the model returns a probability
vector (nonnegative entries summing to 1), the pipeline returns a success
payload with status 200, a confidence in `[0, 1]`, and a non-empty
prediction string. -/
theorem C1_valid_input (m : ModelHandle) (img : NPArray)
    (scores : List Rat) (rest : List (List Rat))
    (hshape : img.shape = [160, 160, 3] ∨ img.shape = [1, 160, 160, 3])
    (hm : m (normalizeInput img) = Except.ok (scores :: rest))
    (hprob : (∀ x ∈ scores, 0 ≤ x) ∧ scores.sum = 1) :
    ∃ pred conf,
      predict m class_labels (some img) = ⟨200, Payload.success pred conf⟩ ∧
      0 ≤ conf ∧ conf ≤ 1 ∧ pred ≠ "" := by
  obtain ⟨hpos, hsum⟩ := hprob
  have hshape2 : (normalizeInput img).shape = expected_shape := by
    rcases hshape with h | h <;> simp [normalizeInput, h, expected_shape]
  have hne : scores ≠ [] := by
    rintro rfl
    simp at hsum
  obtain ⟨a, as, rfl⟩ := List.exists_cons_of_ne_nil hne
  have hlt := npArgmax_lt_length (a :: as) (by simp)
  have hmem : (a :: as).getD (npArgmax (a :: as)) 0 ∈ a :: as :=
    getD_mem_of_lt 0 _ _ hlt
  refine ⟨_, _, predict_model_ok m class_labels img a as rest hshape2 hm,
    hpos _ hmem, hsum ▸ List.single_le_sum hpos _ hmem, ?_⟩
  by_cases hidx : npArgmax (a :: as) ≥ class_labels.length
  · rw [if_pos hidx]
    exact unknown_label_ne_empty _
  · rw [if_neg hidx]
    have hmem2 : class_labels.getD (npArgmax (a :: as)) "" ∈ class_labels :=
      getD_mem_of_lt "" _ _ (lt_of_not_ge hidx)
    have hall : ∀ x ∈ class_labels, x ≠ "" := by decide
    exact hall _ hmem2

theorem C1_valid_input_witness :
    ∃ pred conf,
      predict probModel class_labels (some unbatchedImage) =
        ⟨200, Payload.success pred conf⟩ ∧
      0 ≤ conf ∧ conf ≤ 1 ∧ pred ≠ "" :=
  C1_valid_input probModel unbatchedImage [1, 0] []
    (Or.inl (by decide)) rfl ⟨by decide, by norm_num⟩
